import Mathlib

/-!
Shallow embedding of the three Blender automation scripts of this repository:
  src/export_models.py, src/scripts/export_blender.py, src/scripts/export_svg.py.

Numeric constants from the scripts (Python floats) are modelled as exact
rationals.  Host operator invocations are modelled as an explicit event type
`Op`; each script is embedded twice, at the level it is examined:
  * as the straight-line sequence of host-operator events it issues
    (`exportModelsOps`, `exportBlenderOps`, `exportSvgOps`), run against an
    abstract host oracle that may fail any single step
    (`firstError` / `executedOps`);
  * as state-transformation functions on the scene objects it touches
    (`bakeColor` / `blenderStep` for export_blender.py, `processCurve` and the
    style/id dictionaries for export_svg.py).
-/

namespace Automancy

/-- Python-style concat-map: the flattening of `f` over a list, used to model a
`for` loop whose body issues several host-operator calls per element. -/
def catMap {α β : Type} (f : α → List β) : List α → List β
  | [] => []
  | x :: xs => f x ++ catMap f xs

/-- Eager traversal of a list under a fallible step, modelling a Python
comprehension/`map` that raises as soon as one element raises. -/
def pyMapM {α β : Type} (f : α → Option β) : List α → Option (List β)
  | [] => some []
  | x :: xs =>
    match f x with
    | none => none
    | some y =>
      match pyMapM f xs with
      | none => none
      | some ys => some (y :: ys)

/-- Lookup in an association list built like a Python `dict(pairs)`: a later
binding of the same key overwrites an earlier one. -/
def dictGet {α : Type} (k : String) : List (String × α) → Option α
  | [] => none
  | kv :: rest =>
    match dictGet k rest with
    | some v => some v
    | none => if kv.1 = k then some kv.2 else none

/-- Python `enumerate` starting at index `k`. -/
def pyEnum {α : Type} (k : ℕ) : List α → List (ℕ × α)
  | [] => []
  | x :: xs => (k, x) :: pyEnum (k + 1) xs

/-- Python `sys.argv[-1]` (the scripts always run with a non-empty argv). -/
def pyLast (l : List String) : String := l.getLastD ""

/-- Python `sys.argv[-2]`. -/
def pyPenult (l : List String) : String := pyLast l.dropLast

/-- Python `str.split(sep)` for a single-character separator `c`: keeps empty
fragments, `"".split(c) = [""]`. -/
def pySplit (c : Char) (s : String) : List String :=
  (s.toList.splitOn c).map String.mk

/-- The options record of the `bpy.ops.export_mesh.ply` call in
export_models.py line 11. -/
structure PlyOpts where
  use_uv_coords : Bool
  axis_forward : String
  use_ascii : Bool
deriving DecidableEq

/-- The options record of the `bpy.ops.export_scene.gltf` call in
export_blender.py lines 40-43. -/
structure GltfOpts where
  check_existing : Bool
  export_format : String
  export_image_format : String
  export_texcoords : Bool
  export_materials : String
  export_apply : Bool
  export_skins : Bool
  export_lights : Bool
  export_yup : Bool
  will_save_settings : Bool
  export_draco_mesh_compression_enable : Bool
deriving DecidableEq

/-- export_models.py line 11: `use_uv_coords=False, axis_forward=-Y,
use_ascii=True`. -/
def plyOpts : PlyOpts := { use_uv_coords := false, axis_forward := "-Y", use_ascii := true }

/-- export_blender.py lines 40-43, keyword arguments of the glTF export. -/
def gltfOpts : GltfOpts :=
  { check_existing := false, export_format := "GLB", export_image_format := "NONE"
  , export_texcoords := false, export_materials := "NONE", export_apply := true
  , export_skins := false, export_lights := false, export_yup := false
  , will_save_settings := false, export_draco_mesh_compression_enable := false }

/-- The literal `3.14159265358979323846264338327950288` of export_blender.py
line 13, as an exact rational. -/
def piLit : ℚ :=
  314159265358979323846264338327950288 / 100000000000000000000000000000000000

/-- Host-operator events issued by the scripts.  `flipNormals` is the host's
normal-flipping operator (`bpy.ops.mesh.flip_normals`); it is part of the
host vocabulary but, as proved below, never issued by any of the scripts. -/
inductive Op : Type where
  | addModifier (modName modType : String)
  | setSplitAngle (v : ℚ)
  | deselectActive
  | setRotationZDelta (d : ℚ)
  | setActive (name : String)
  | modeSet (mode : String)
  | selectAll
  | updateEditMesh
  | newColorAttribute (attrName ctype domain : String)
  | setCornerColors
  | removeObject (name : String)
  | parseSvg (path : String)
  | importSvg (path : String)
  | convertToMesh (name : String)
  | copyMatrixWorld
  | setDeltaZ
  | setAlpha
  | linkObject (name : String)
  | setDimensions
  | addDeltaXY
  | translateVerts (x y z : ℚ)
  | beautifyFill
  | removeDoubles (dist : ℚ)
  | flipNormals
  | exportPly (filepath : String) (opts : PlyOpts)
  | exportGltf (filepath : String) (opts : GltfOpts)
  | saveMainfile (filepath : String)
deriving DecidableEq

/-- Events that write an output file. -/
def isExport : Op → Bool
  | .exportPly _ _ => true
  | .exportGltf _ _ => true
  | .saveMainfile _ => true
  | _ => false

/-- Events that remove an object from the scene. -/
def isRemoval : Op → Bool
  | .removeObject _ => true
  | _ => false

/-- The kinds of mesh operation named by the specification. -/
inductive MeshCat : Type where
  | triangulation
  | edgeSplitting
  | normalFlipping
  | vertexDedup
  | rotationScaling
  | colorBaking
  | vertexTranslation
deriving DecidableEq

/-- Classification of each event as a mesh operation (or `none` for scene
management and I/O events).  `beautifyFill` rearranges the triangulation of
its faces, hence `triangulation`; `setDimensions` scales the object. -/
def meshCat : Op → Option MeshCat
  | .addModifier _ t =>
    if t = "EDGE_SPLIT" then some .edgeSplitting
    else if t = "TRIANGULATE" then some .triangulation
    else none
  | .setSplitAngle _ => some .edgeSplitting
  | .setRotationZDelta _ => some .rotationScaling
  | .setDimensions => some .rotationScaling
  | .newColorAttribute _ _ _ => some .colorBaking
  | .setCornerColors => some .colorBaking
  | .translateVerts _ _ _ => some .vertexTranslation
  | .beautifyFill => some .triangulation
  | .removeDoubles _ => some .vertexDedup
  | .flipNormals => some .normalFlipping
  | _ => none

/-- Whether an event is the host's normal-flipping operator. -/
def isNormalFlip (op : Op) : Bool := meshCat op == some MeshCat.normalFlipping

/-- Whether an event is, when it is a mesh operation at all, of a kind other
than normal flipping. -/
def goodCat (op : Op) : Bool :=
  match meshCat op with
  | none => true
  | some MeshCat.normalFlipping => false
  | some _ => true

/-- Whether an event is not a removal. -/
def noRemoval (op : Op) : Bool := !(isRemoval op)

/-- Whether an event writes the host's native save file. -/
def isSave : Op → Bool
  | .saveMainfile _ => true
  | _ => false

/-- Whether an event is not a save-mainfile event. -/
def noSave (op : Op) : Bool := !(isSave op)

/-- export_models.py, whole module body (lines 6-11): for every object in
`bpy.data.objects`, add an EdgeSplit modifier, set its split angle to `0.0`,
add a Triangulate modifier; then export PLY to `sys.argv[-1]`. -/
def exportModelsOps (argv : List String) (objects : List String) : List Op :=
  catMap (fun _ =>
      [Op.addModifier "EdgeSplit" "EDGE_SPLIT", Op.setSplitAngle 0,
       Op.addModifier "Triangulate" "TRIANGULATE"]) objects
    ++ [Op.exportPly (pyLast argv) plyOpts]

/-- The facts about a scene object that decide export_blender.py's control
flow: its name, its `type`, whether `obj.data.color_attributes` is non-empty,
and whether it has an `active_material`. -/
structure BObjInfo where
  name : String
  otype : String
  hasColorAttrs : Bool
  hasMaterial : Bool
deriving DecidableEq

/-- export_blender.py lines 13-38, loop body for one MESH object. -/
def blenderObjOps (o : BObjInfo) : List Op :=
  [Op.setRotationZDelta (-piLit), Op.setActive o.name, Op.modeSet "EDIT",
   Op.selectAll, Op.updateEditMesh, Op.modeSet "OBJECT"]
    ++ (if !o.hasColorAttrs && o.hasMaterial then
          [Op.newColorAttribute "Col" "BYTE_COLOR" "CORNER", Op.setCornerColors]
        else [])

/-- export_blender.py `main` (lines 6-43): optional deselect of the active
object, the per-MESH-object loop, then the glTF export to `sys.argv[-1]`. -/
def exportBlenderOps (argv : List String) (hasActive : Bool)
    (objects : List BObjInfo) : List Op :=
  (if hasActive then [Op.deselectActive] else [])
    ++ catMap blenderObjOps (objects.filter (fun o => o.otype == "MESH"))
    ++ [Op.exportGltf (pyLast argv) gltfOpts]

/-- The facts about one imported curve object that decide export_svg.py's
per-curve control flow: its name, and whether its style's `fill-opacity`
lookup is truthy (deciding whether the alpha assignment happens). -/
structure CurveInfo where
  name : String
  hasAlpha : Bool
deriving DecidableEq

/-- export_svg.py lines 27-65, loop body for one imported curve object. -/
def svgCurveOps (c : CurveInfo) : List Op :=
  [Op.convertToMesh c.name, Op.copyMatrixWorld, Op.setDeltaZ]
    ++ (if c.hasAlpha then [Op.setAlpha] else [])
    ++ [Op.linkObject c.name, Op.removeObject c.name, Op.setDimensions,
        Op.addDeltaXY, Op.setActive c.name, Op.modeSet "EDIT", Op.selectAll,
        Op.translateVerts (-1) (-1) 0, Op.beautifyFill,
        Op.removeDoubles (1 / 10), Op.updateEditMesh, Op.modeSet "OBJECT"]

/-- export_svg.py `main` (lines 6-67): remove every object of the scene,
parse the SVG at `sys.argv[-2]`, import it, run the per-curve loop, save the
mainfile to `sys.argv[-1]`. -/
def exportSvgOps (argv : List String) (objects : List String)
    (curves : List CurveInfo) : List Op :=
  objects.map Op.removeObject
    ++ Op.parseSvg (pyPenult argv)
      :: Op.importSvg (pyPenult argv)
      :: catMap svgCurveOps curves
    ++ [Op.saveMainfile (pyLast argv)]

/-- Scene state after export_svg.py's removal loop (lines 12-13): iterating
over the initial objects, each iteration removes that object from the
scene. -/
def sceneAfterRemoval (objects : List String) : List String :=
  objects.foldl (fun s o => s.erase o) objects

/-- Result of running a straight-line step list against a host oracle `h`
(`h op = some e` means step `op` raises `e`): the first error raised, if
any.  The scripts contain no `try`/`except`, so this is their semantics. -/
def firstError {E : Type} (h : Op → Option E) : List Op → Option E
  | [] => none
  | op :: rest =>
    match h op with
    | some e => some e
    | none => firstError h rest

/-- The steps actually executed before the run stops: everything up to (and
excluding) the first failing step. -/
def executedOps {E : Type} (h : Op → Option E) : List Op → List Op
  | [] => []
  | op :: rest =>
    match h op with
    | some _ => []
    | none => op :: executedOps h rest

/-- The attributes of one SVG `path` element as export_svg.py reads them:
its mandatory `id` attribute and its optional `style` attribute
(`a.get('style')` is `None` when the attribute is absent). -/
structure PathAttrib where
  id : String
  style : Option String
deriving DecidableEq

/-- export_svg.py line 20, `a.get('style') or 'ihate:python'`: Python `or`
also falls through on the empty string, which is falsy. -/
def styleOf (a : PathAttrib) : String :=
  match a.style with
  | some s => if s = "" then "ihate:python" else s
  | none => "ihate:python"

/-- One declaration `p` of a style string as `dict(...)` consumes it:
`p.split(':')` must yield exactly a key and a value, otherwise `dict`
raises. -/
def pairOf (p : String) : Option (String × String) :=
  match pySplit ':' p with
  | [k, v] => some (k, v)
  | _ => none

/-- export_svg.py line 20, the inner dictionary for one path:
`dict(map(lambda p: p.split(':'), (a.get('style') or 'ihate:python').split(';')))`,
as the association list of its bindings (lookup is `dictGet`). -/
def styleDict (a : PathAttrib) : Option (List (String × String)) :=
  pyMapM pairOf (pySplit ';' (styleOf a))

/-- export_svg.py line 20, the outer `styles` dictionary keyed by path id. -/
def buildStyles (attribs : List PathAttrib) :
    Option (List (String × List (String × String))) :=
  pyMapM (fun a =>
    match styleDict a with
    | none => none
    | some d => some (a.id, d)) attribs

/-- export_svg.py line 19:
`dict(map(lambda e: (e[1], e[0]), enumerate(map(lambda a: a['id'], attribs))))`. -/
def buildIds (attribs : List PathAttrib) : List (String × ℕ) :=
  (pyEnum 0 (attribs.map PathAttrib.id)).map (fun e => (e.2, e.1))

/-- Encoding of one `key:value` declaration as characters; used to state
what a well-formed inline style string looks like. -/
def mkDecl (kv : String × String) : List Char :=
  kv.1.toList ++ ':' :: kv.2.toList

/-- The style string `k1:v1;...;kn:vn` built from a list of bindings. -/
def mkStyle (kvs : List (String × String)) : String :=
  String.mk (List.intercalate [';'] (kvs.map mkDecl))

/-- An RGBA color (a material's `diffuse_color`). -/
structure Color where
  r : ℚ
  g : ℚ
  b : ℚ
  a : ℚ
deriving DecidableEq

/-- The fields of the mesh object built in export_svg.py's per-curve loop
that the loop reads or writes: name, material (as its diffuse color),
dimensions and delta location. -/
structure SvgObject where
  name : String
  material : Option Color
  dim_x : ℚ
  dim_y : ℚ
  dim_z : ℚ
  delta_x : ℚ
  delta_y : ℚ
  delta_z : ℚ
deriving DecidableEq

/-- export_svg.py line 41. -/
def edge_smallen_ratio : ℚ := 95 / 100

/-- The z delta-location formula of export_svg.py line 33 for the path at
0-based document position `i` out of `n`. -/
def deltaZ (i n : ℕ) : ℚ := ((i : ℚ) / (n : ℚ)) / 64 + 5 / 1000

/-- export_svg.py lines 28-65, state effect of the loop body on the mesh
object `fresh` freshly converted from a curve (fresh carries the curve's
name and material and the converted mesh's dimensions; its delta location is
the fresh object's).  `total` is `float(len(attribs))`; `fp` models Python
`float(...)` on strings, `none` meaning it raises.  Returns the final object
state and the edit-mode mesh operations issued, or `none` when a lookup,
`float`, or attribute access raises. -/
def processCurve (ids : List (String × ℕ))
    (styles : List (String × List (String × String))) (total : ℚ)
    (fp : String → Option ℚ) (fresh : SvgObject) :
    Option (SvgObject × List Op) :=
  match dictGet fresh.name ids with
  | none => none
  | some i =>
    let o1 : SvgObject := { fresh with delta_z := ((i : ℚ) / total) / 64 + 5 / 1000 }
    match dictGet fresh.name styles with
    | none => none
    | some st =>
      let o2opt : Option SvgObject :=
        match dictGet "fill-opacity" st with
        | none => some o1
        | some v =>
          if v = "" then some o1
          else
            match fp v with
            | none => none
            | some q =>
              match o1.material with
              | none => none
              | some m => some { o1 with material := some { m with a := q } }
      match o2opt with
      | none => none
      | some o2 =>
        let o3 : SvgObject :=
          { o2 with dim_x := o2.dim_x / 8 * edge_smallen_ratio
                  , dim_y := o2.dim_y / 8 * edge_smallen_ratio }
        let o4 : SvgObject :=
          { o3 with delta_x := o3.delta_x + (1 - edge_smallen_ratio)
                  , delta_y := o3.delta_y + (1 - edge_smallen_ratio) }
        some (o4, [Op.translateVerts (-1) (-1) 0, Op.beautifyFill,
                   Op.removeDoubles (1 / 10)])

/-- One color attribute of a mesh datablock. -/
structure ColorAttribute where
  attrName : String
  ctype : String
  domain : String
  data : List Color
deriving DecidableEq

/-- The mesh datablock fields export_blender.py touches: its color
attributes, and how many corner elements a new CORNER-domain attribute
gets. -/
structure BMeshData where
  color_attributes : List ColorAttribute
  corners : ℕ
deriving DecidableEq

/-- A scene object as export_blender.py sees it. -/
structure BObject where
  name : String
  otype : String
  rotation_euler_z : ℚ
  data : BMeshData
  active_material : Option Color
deriving DecidableEq

/-- Initial color of a freshly created byte-color attribute element. -/
def defaultColor : Color := { r := 0, g := 0, b := 0, a := 1 }

/-- export_blender.py lines 32-38: if the mesh has no color attributes and
the object has an active material, create a byte-color corner-domain
attribute named Col (it becomes the mesh's active color attribute) and set
every element of its data to the material's diffuse color. -/
def bakeColor (obj : BObject) : BObject :=
  if obj.data.color_attributes = [] ∧ obj.active_material.isSome then
    match obj.active_material with
    | none => obj
    | some color =>
      let created : ColorAttribute :=
        { attrName := "Col", ctype := "BYTE_COLOR", domain := "CORNER"
        , data := List.replicate obj.data.corners defaultColor }
      let filled : ColorAttribute :=
        { created with data := created.data.map (fun _ => color) }
      { obj with data :=
          { obj.data with color_attributes := obj.data.color_attributes ++ [filled] } }
  else obj

/-- export_blender.py lines 13-38, state effect of the loop body on one MESH
object: `rotation_euler.z += -3.14159...`, then the color-baking branch. -/
def blenderStep (obj : BObject) : BObject :=
  bakeColor { obj with rotation_euler_z := obj.rotation_euler_z + (-piLit) }

/-- export_blender.py line 12: the loop runs over
`filter(lambda o: o.type == 'MESH', bpy.data.objects)`; other objects are
untouched. -/
def blenderScene (objs : List BObject) : List BObject :=
  objs.map (fun o => if o.otype = "MESH" then blenderStep o else o)

/-- A host oracle on which every export operator raises error `7` and every
other operator succeeds; used to exercise the failure semantics. -/
def failSaveHost (op : Op) : Option ℕ := if isExport op then some 7 else none

/-- A host oracle on which parsing the SVG raises error `3` and everything
else succeeds. -/
def parseFailHost (op : Op) : Option ℕ :=
  match op with
  | Op.parseSvg _ => some 3
  | _ => none

/-- A concrete model of Python `float(...)` knowing only the string 0.5;
used to exercise the fill-opacity branch. -/
def fpTest (s : String) : Option ℚ := if s = "0.5" then some (1 / 2) else none

/-! ### General helper lemmas -/

theorem catMap_filter {α β : Type} (p : β → Bool) (f : α → List β) :
    ∀ l : List α, (catMap f l).filter p = catMap (fun x => (f x).filter p) l := by
  intro l
  induction l with
  | nil => rfl
  | cons x xs ih => simp [catMap, List.filter_append, ih]

theorem catMap_eq_nil {α β : Type} (g : α → List β) (hg : ∀ x, g x = []) :
    ∀ l : List α, catMap g l = [] := by
  intro l
  induction l with
  | nil => rfl
  | cons x xs ih => simp [catMap, hg, ih]

theorem catMap_all {α β : Type} (p : β → Bool) (f : α → List β) :
    ∀ l : List α, (catMap f l).all p = l.all (fun x => (f x).all p) := by
  intro l
  induction l with
  | nil => rfl
  | cons x xs ih => simp [catMap, List.all_append, ih]

theorem pyLast_eq_getLast (l : List String) (h : l ≠ []) : pyLast l = l.getLast h := by
  rw [pyLast, List.getLastD_eq_getLast?, List.getLast?_eq_getLast l h]
  rfl

theorem scene_diff_self (l : List String) : l.diff l = [] := by
  induction l with
  | nil => rfl
  | cons a t ih => rw [List.diff_cons, List.erase_cons_head]; exact ih

theorem sceneAfterRemoval_eq_nil (l : List String) : sceneAfterRemoval l = [] := by
  have h1 : sceneAfterRemoval l = l.diff l := by
    unfold sceneAfterRemoval
    exact (List.diff_eq_foldl l l).symm
  rw [h1]
  exact scene_diff_self l

theorem firstError_append {E : Type} (h : Op → Option E) (l₁ l₂ : List Op)
    (hl : ∀ op ∈ l₁, h op = none) :
    firstError h (l₁ ++ l₂) = firstError h l₂ := by
  induction l₁ with
  | nil => rfl
  | cons a t ih =>
    have ha : h a = none := hl a (List.mem_cons_self a t)
    have ht : ∀ op ∈ t, h op = none := fun op hop => hl op (List.mem_cons_of_mem a hop)
    simp [firstError, ha, ih ht]

theorem executedOps_append {E : Type} (h : Op → Option E) (l₁ l₂ : List Op)
    (hl : ∀ op ∈ l₁, h op = none) :
    executedOps h (l₁ ++ l₂) = l₁ ++ executedOps h l₂ := by
  induction l₁ with
  | nil => rfl
  | cons a t ih =>
    have ha : h a = none := hl a (List.mem_cons_self a t)
    have ht : ∀ op ∈ t, h op = none := fun op hop => hl op (List.mem_cons_of_mem a hop)
    simp [executedOps, ha, ih ht]

theorem run_propagation {E : Type} (h : Op → Option E) :
    ∀ T : List Op, (∃ op ∈ T, (h op).isSome) →
      ∃ pre op post e, T = pre ++ op :: post ∧ (∀ o ∈ pre, h o = none) ∧
        h op = some e ∧ firstError h T = some e ∧ executedOps h T = pre := by
  intro T
  induction T with
  | nil =>
    rintro ⟨op, hop, _⟩
    cases hop
  | cons a t ih =>
    intro hex
    cases ha : h a with
    | some e =>
      refine ⟨[], a, t, e, rfl, ?_, ha, ?_, ?_⟩
      · intro o ho; cases ho
      · simp [firstError, ha]
      · simp [executedOps, ha]
    | none =>
      have hex' : ∃ op ∈ t, (h op).isSome := by
        rcases hex with ⟨op, hop, hs⟩
        rcases List.mem_cons.mp hop with h1 | h2
        · subst h1; rw [ha] at hs; simp at hs
        · exact ⟨op, h2, hs⟩
      rcases ih hex' with ⟨pre, op, post, e, hT, hpre, hop, hfe, hexec⟩
      refine ⟨a :: pre, op, post, e, by rw [hT]; rfl, ?_, hop, ?_, ?_⟩
      · intro o ho
        rcases List.mem_cons.mp ho with h1 | h2
        · subst h1; exact ha
        · exact hpre o h2
      · simp [firstError, ha, hfe]
      · simp [executedOps, ha, hexec]

/-! ### Per-script block lemmas -/

theorem blenderObjOps_filter_isExport (o : BObjInfo) :
    (blenderObjOps o).filter isExport = [] := by
  rcases o with ⟨n, t, ca, m⟩
  cases ca <;> cases m <;> rfl

theorem svgCurveOps_filter_isExport (c : CurveInfo) :
    (svgCurveOps c).filter isExport = [] := by
  rcases c with ⟨n, a⟩
  cases a <;> rfl

theorem blenderObjOps_all_goodCat (o : BObjInfo) :
    (blenderObjOps o).all goodCat = true := by
  rcases o with ⟨n, t, ca, m⟩
  cases ca <;> cases m <;> rfl

theorem svgCurveOps_all_goodCat (c : CurveInfo) :
    (svgCurveOps c).all goodCat = true := by
  rcases c with ⟨n, a⟩
  cases a <;> rfl

theorem blenderObjOps_all_noRemoval (o : BObjInfo) :
    (blenderObjOps o).all noRemoval = true := by
  rcases o with ⟨n, t, ca, m⟩
  cases ca <;> cases m <;> rfl

/-! ### Claims -/

/-- Claim C1: each script writes exactly one output file, through a single
host export operator invoked with a fixed options record — export_models.py
exports PLY (ASCII, no UV coordinates, forward axis -Y), export_blender.py
exports GLB, export_svg.py writes the host's native save file — and in every
script the output path is the last command-line argument. -/
theorem c1_single_export_fixed_options (argv objsM : List String)
    (hasActive : Bool) (objsB : List BObjInfo) (objsS : List String)
    (curves : List CurveInfo) :
    (exportModelsOps argv objsM).filter isExport
        = [Op.exportPly (pyLast argv) plyOpts]
      ∧ plyOpts.use_ascii = true ∧ plyOpts.use_uv_coords = false
      ∧ plyOpts.axis_forward = "-Y"
      ∧ (exportBlenderOps argv hasActive objsB).filter isExport
          = [Op.exportGltf (pyLast argv) gltfOpts]
      ∧ gltfOpts.export_format = "GLB"
      ∧ (exportSvgOps argv objsS curves).filter isExport
          = [Op.saveMainfile (pyLast argv)]
      ∧ (∀ h : argv ≠ [], pyLast argv = argv.getLast h) := by
  have hM : (catMap (fun _ : String =>
      [Op.addModifier "EdgeSplit" "EDGE_SPLIT", Op.setSplitAngle 0,
       Op.addModifier "Triangulate" "TRIANGULATE"]) objsM).filter isExport = [] := by
    rw [catMap_filter]
    exact catMap_eq_nil _ (fun _ => rfl) objsM
  have hB0 : ((if hasActive then [Op.deselectActive] else []).filter isExport) = [] := by
    cases hasActive <;> rfl
  have hB1 : (catMap blenderObjOps (objsB.filter (fun o => o.otype == "MESH"))).filter
      isExport = [] := by
    rw [catMap_filter]
    exact catMap_eq_nil _ blenderObjOps_filter_isExport _
  have hS0 : (objsS.map Op.removeObject).filter isExport = [] := by
    refine List.filter_eq_nil_iff.mpr ?_
    intro a ha
    rcases List.mem_map.mp ha with ⟨x, _, rfl⟩
    simp [isExport]
  have hS1 : (catMap svgCurveOps curves).filter isExport = [] := by
    rw [catMap_filter]
    exact catMap_eq_nil _ svgCurveOps_filter_isExport _
  refine ⟨?_, rfl, rfl, rfl, ?_, rfl, ?_, fun h => pyLast_eq_getLast argv h⟩
  · rw [exportModelsOps, List.filter_append, hM]
    rfl
  · rw [exportBlenderOps, List.filter_append, List.filter_append, hB0, hB1]
    rfl
  · rw [exportSvgOps, List.filter_append, List.filter_append, hS0]
    simp [List.filter_cons, isExport, hS1]

/-- Claim C1 witness at a concrete argv and scene. -/
theorem c1_witness :
    (["blender", "out.ply"] : List String) ≠ [] ∧
      ((exportModelsOps ["blender", "out.ply"] ["Cube"]).filter isExport
          = [Op.exportPly (pyLast ["blender", "out.ply"]) plyOpts]
        ∧ plyOpts.use_ascii = true ∧ plyOpts.use_uv_coords = false
        ∧ plyOpts.axis_forward = "-Y"
        ∧ (exportBlenderOps ["blender", "out.ply"] true
              [{ name := "Cube", otype := "MESH", hasColorAttrs := false,
                 hasMaterial := true }]).filter isExport
            = [Op.exportGltf (pyLast ["blender", "out.ply"]) gltfOpts]
        ∧ gltfOpts.export_format = "GLB"
        ∧ (exportSvgOps ["blender", "out.ply"] ["Camera"]
              [{ name := "path0", hasAlpha := true }]).filter isExport
            = [Op.saveMainfile (pyLast ["blender", "out.ply"])]
        ∧ (∀ h : (["blender", "out.ply"] : List String) ≠ [],
            pyLast ["blender", "out.ply"] = List.getLast ["blender", "out.ply"] h)) :=
  ⟨by decide,
   c1_single_export_fixed_options ["blender", "out.ply"] ["Cube"] true
     [{ name := "Cube", otype := "MESH", hasColorAttrs := false, hasMaterial := true }]
     ["Camera"] [{ name := "path0", hasAlpha := true }]⟩

/-- Claim C2 counterexample: at a concrete scene and argv, the combined event
traces of the three scripts contain no normal-flipping operation at all, so
it is false that at least one script performs a normal flip on its meshes. -/
theorem c2_counterexample :
    (exportModelsOps ["blender", "out.ply"] ["Cube"]
      ++ exportBlenderOps ["blender", "out.glb"] true
           [{ name := "Cube", otype := "MESH", hasColorAttrs := false,
              hasMaterial := true }]
      ++ exportSvgOps ["blender", "in.svg", "out.blend"] ["Camera"]
           [{ name := "path0", hasAlpha := true },
            { name := "path1", hasAlpha := false }]).filter isNormalFlip = [] := by
  decide

/-- Claim C2 (amended): every mesh operation issued by any of the three
scripts is drawn from {triangulation, edge splitting, vertex deduplication,
rotation/scaling, vertex-color baking, vertex translation}; no script
performs a normal-flipping operation. -/
theorem c2_amended (argvM objsM : List String) (argvB : List String)
    (hasActive : Bool) (objsB : List BObjInfo) (argvS objsS : List String)
    (curves : List CurveInfo) :
    ∀ op, (op ∈ exportModelsOps argvM objsM
        ∨ op ∈ exportBlenderOps argvB hasActive objsB
        ∨ op ∈ exportSvgOps argvS objsS curves) →
      meshCat op ≠ some MeshCat.normalFlipping
      ∧ (∀ c, meshCat op = some c →
          (c = MeshCat.triangulation ∨ c = MeshCat.edgeSplitting
            ∨ c = MeshCat.vertexDedup ∨ c = MeshCat.rotationScaling
            ∨ c = MeshCat.colorBaking ∨ c = MeshCat.vertexTranslation)) := by
  have hM : (exportModelsOps argvM objsM).all goodCat = true := by
    rw [exportModelsOps, List.all_append, catMap_all, Bool.and_eq_true]
    refine ⟨?_, rfl⟩
    rw [List.all_eq_true]
    intro x hx
    rfl
  have hB : (exportBlenderOps argvB hasActive objsB).all goodCat = true := by
    rw [exportBlenderOps, List.all_append, List.all_append, catMap_all,
      Bool.and_eq_true, Bool.and_eq_true]
    refine ⟨⟨?_, ?_⟩, rfl⟩
    · cases hasActive <;> rfl
    · rw [List.all_eq_true]
      intro o ho
      exact blenderObjOps_all_goodCat o
  have hS : (exportSvgOps argvS objsS curves).all goodCat = true := by
    rw [exportSvgOps, List.all_append, List.all_append, Bool.and_eq_true,
      Bool.and_eq_true]
    refine ⟨⟨?_, ?_⟩, rfl⟩
    · rw [List.all_eq_true]
      intro a ha
      rcases List.mem_map.mp ha with ⟨x, _, rfl⟩
      rfl
    · rw [List.all_cons, List.all_cons, catMap_all, Bool.and_eq_true,
        Bool.and_eq_true]
      refine ⟨rfl, rfl, ?_⟩
      rw [List.all_eq_true]
      intro c hc
      exact svgCurveOps_all_goodCat c
  intro op hop
  have hgood : goodCat op = true := by
    rcases hop with h | h | h
    · exact List.all_eq_true.mp hM op h
    · exact List.all_eq_true.mp hB op h
    · exact List.all_eq_true.mp hS op h
  constructor
  · intro heq
    rw [goodCat, heq] at hgood
    cases hgood
  · intro c hc
    rw [goodCat, hc] at hgood
    cases c
    · exact Or.inl rfl
    · exact Or.inr (Or.inl rfl)
    · cases hgood
    · exact Or.inr (Or.inr (Or.inl rfl))
    · exact Or.inr (Or.inr (Or.inr (Or.inl rfl)))
    · exact Or.inr (Or.inr (Or.inr (Or.inr (Or.inl rfl))))
    · exact Or.inr (Or.inr (Or.inr (Or.inr (Or.inr rfl))))

/-- Claim C2 (amended) witness at a concrete scene and event. -/
theorem c2_witness :
    (Op.addModifier "EdgeSplit" "EDGE_SPLIT"
        ∈ exportModelsOps ["blender", "out.ply"] ["Cube"]
      ∨ Op.addModifier "EdgeSplit" "EDGE_SPLIT"
          ∈ exportBlenderOps ["b"] false []
      ∨ Op.addModifier "EdgeSplit" "EDGE_SPLIT"
          ∈ exportSvgOps ["blender", "in.svg", "out.blend"] ["Camera"]
              [{ name := "path0", hasAlpha := false }])
    ∧ (meshCat (Op.addModifier "EdgeSplit" "EDGE_SPLIT")
        ≠ some MeshCat.normalFlipping
      ∧ (∀ c, meshCat (Op.addModifier "EdgeSplit" "EDGE_SPLIT") = some c →
          (c = MeshCat.triangulation ∨ c = MeshCat.edgeSplitting
            ∨ c = MeshCat.vertexDedup ∨ c = MeshCat.rotationScaling
            ∨ c = MeshCat.colorBaking ∨ c = MeshCat.vertexTranslation))) :=
  ⟨Or.inl (by simp [exportModelsOps, catMap]),
   c2_amended ["blender", "out.ply"] ["Cube"] ["b"] false []
     ["blender", "in.svg", "out.blend"] ["Camera"]
     [{ name := "path0", hasAlpha := false }]
     (Op.addModifier "EdgeSplit" "EDGE_SPLIT")
     (Or.inl (by simp [exportModelsOps, catMap]))⟩

/-- Claim C3 counterexample: at a concrete non-empty scene, export_models.py
and export_blender.py issue no object-removal event at all, so it is false
that each script begins by removing every existing object from the scene. -/
theorem c3_counterexample :
    (exportModelsOps ["blender", "out.ply"] ["Cube", "Lamp"]).filter isRemoval = []
    ∧ (exportBlenderOps ["blender", "out.glb"] true
        [{ name := "Cube", otype := "MESH", hasColorAttrs := true,
           hasMaterial := false }]).filter isRemoval = [] := by
  decide

/-- Claim C3 (amended): only export_svg.py removes the existing scene
objects — its trace starts with one removal per initial object, before the
parse and import steps, and the removal loop leaves the scene empty;
export_models.py and export_blender.py issue no removal at all. -/
theorem c3_amended (argvM objsM : List String) (argvB : List String)
    (hasActive : Bool) (objsB : List BObjInfo) (argvS objsS : List String)
    (curves : List CurveInfo) :
    (∀ op ∈ exportModelsOps argvM objsM, isRemoval op = false)
    ∧ (∀ op ∈ exportBlenderOps argvB hasActive objsB, isRemoval op = false)
    ∧ exportSvgOps argvS objsS curves
        = objsS.map Op.removeObject
          ++ (Op.parseSvg (pyPenult argvS) :: Op.importSvg (pyPenult argvS)
              :: (catMap svgCurveOps curves ++ [Op.saveMainfile (pyLast argvS)]))
    ∧ sceneAfterRemoval objsS = [] := by
  have hM : (exportModelsOps argvM objsM).all noRemoval = true := by
    rw [exportModelsOps, List.all_append, catMap_all, Bool.and_eq_true]
    refine ⟨?_, rfl⟩
    rw [List.all_eq_true]
    intro x hx
    rfl
  have hB : (exportBlenderOps argvB hasActive objsB).all noRemoval = true := by
    rw [exportBlenderOps, List.all_append, List.all_append, catMap_all,
      Bool.and_eq_true, Bool.and_eq_true]
    refine ⟨⟨?_, ?_⟩, rfl⟩
    · cases hasActive <;> rfl
    · rw [List.all_eq_true]
      intro o ho
      exact blenderObjOps_all_noRemoval o
  refine ⟨?_, ?_, ?_, sceneAfterRemoval_eq_nil objsS⟩
  · intro op hop
    have := List.all_eq_true.mp hM op hop
    rw [noRemoval] at this
    simpa using this
  · intro op hop
    have := List.all_eq_true.mp hB op hop
    rw [noRemoval] at this
    simpa using this
  · simp [exportSvgOps]

/-- Claim C3 (amended) witness at concrete scenes and events. -/
theorem c3_witness :
    Op.addModifier "EdgeSplit" "EDGE_SPLIT"
        ∈ exportModelsOps ["blender", "out.ply"] ["Cube"]
    ∧ isRemoval (Op.addModifier "EdgeSplit" "EDGE_SPLIT") = false
    ∧ Op.selectAll ∈ exportBlenderOps ["blender", "out.glb"] true
        [{ name := "Cube", otype := "MESH", hasColorAttrs := false,
           hasMaterial := true }]
    ∧ isRemoval Op.selectAll = false
    ∧ exportSvgOps ["blender", "in.svg", "out.blend"] ["Camera"]
        [{ name := "path0", hasAlpha := true }]
        = (["Camera"].map Op.removeObject)
          ++ (Op.parseSvg (pyPenult ["blender", "in.svg", "out.blend"])
              :: Op.importSvg (pyPenult ["blender", "in.svg", "out.blend"])
              :: (catMap svgCurveOps [{ name := "path0", hasAlpha := true }]
                  ++ [Op.saveMainfile (pyLast ["blender", "in.svg", "out.blend"])]))
    ∧ sceneAfterRemoval ["Camera"] = [] :=
  ⟨by simp [exportModelsOps, catMap],
   (c3_amended ["blender", "out.ply"] ["Cube"] ["blender", "out.glb"] true
     [{ name := "Cube", otype := "MESH", hasColorAttrs := false,
        hasMaterial := true }] ["blender", "in.svg", "out.blend"] ["Camera"]
     [{ name := "path0", hasAlpha := true }]).1 _
     (by simp [exportModelsOps, catMap]),
   by simp [exportBlenderOps, blenderObjOps, catMap],
   (c3_amended ["blender", "out.ply"] ["Cube"] ["blender", "out.glb"] true
     [{ name := "Cube", otype := "MESH", hasColorAttrs := false,
        hasMaterial := true }] ["blender", "in.svg", "out.blend"] ["Camera"]
     [{ name := "path0", hasAlpha := true }]).2.1 _
     (by simp [exportBlenderOps, blenderObjOps, catMap]),
   (c3_amended ["blender", "out.ply"] ["Cube"] ["blender", "out.glb"] true
     [{ name := "Cube", otype := "MESH", hasColorAttrs := false,
        hasMaterial := true }] ["blender", "in.svg", "out.blend"] ["Camera"]
     [{ name := "path0", hasAlpha := true }]).2.2.1,
   (c3_amended ["blender", "out.ply"] ["Cube"] ["blender", "out.glb"] true
     [{ name := "Cube", otype := "MESH", hasColorAttrs := false,
        hasMaterial := true }] ["blender", "in.svg", "out.blend"] ["Camera"]
     [{ name := "path0", hasAlpha := true }]).2.2.2⟩

/-- Claim C7: the scripts are straight-line operator sequences with no
failure handling — whenever any step of any of the three scripts fails, the
run stops exactly there: the first failing step's error is returned
unchanged, the executed steps are exactly those strictly before it, and no
retry, fallback, or cleanup step runs. -/
theorem c7_no_failure_handling (E : Type) (h : Op → Option E)
    (argvM objsM : List String) (argvB : List String) (hasActive : Bool)
    (objsB : List BObjInfo) (argvS objsS : List String) (curves : List CurveInfo)
    (T : List Op)
    (hT : T = exportModelsOps argvM objsM
        ∨ T = exportBlenderOps argvB hasActive objsB
        ∨ T = exportSvgOps argvS objsS curves)
    (hex : ∃ op ∈ T, (h op).isSome) :
    ∃ pre op post e, T = pre ++ op :: post ∧ (∀ o ∈ pre, h o = none) ∧
      h op = some e ∧ firstError h T = some e ∧ executedOps h T = pre := by
  rcases hT with rfl | rfl | rfl <;> exact run_propagation h _ hex

/-- Claim C7 witness: a host on which the PLY export fails, run on
export_models.py's trace. -/
theorem c7_witness :
    (∃ op ∈ exportModelsOps ["blender", "out.ply"] ["Cube"],
        (failSaveHost op).isSome)
    ∧ (∃ pre op post e,
        exportModelsOps ["blender", "out.ply"] ["Cube"] = pre ++ op :: post
        ∧ (∀ o ∈ pre, failSaveHost o = none) ∧ failSaveHost op = some e
        ∧ firstError failSaveHost (exportModelsOps ["blender", "out.ply"] ["Cube"])
            = some e
        ∧ executedOps failSaveHost (exportModelsOps ["blender", "out.ply"] ["Cube"])
            = pre) :=
  ⟨by decide,
   c7_no_failure_handling ℕ failSaveHost ["blender", "out.ply"] ["Cube"]
     [] false [] [] [] [] (exportModelsOps ["blender", "out.ply"] ["Cube"])
     (Or.inl rfl) (by decide)⟩

theorem executedOps_mem {E : Type} (h : Op → Option E) :
    ∀ (L : List Op) (b : Op), b ∈ executedOps h L → b ∈ L := by
  intro L
  induction L with
  | nil => intro b hb; cases hb
  | cons a t ih =>
    intro b hb
    cases ha : h a with
    | some e => rw [executedOps, ha] at hb; cases hb
    | none =>
      rw [executedOps, ha] at hb
      rcases List.mem_cons.mp hb with rfl | hb
      · exact List.mem_cons_self _ _
      · exact List.mem_cons_of_mem a (ih b hb)

theorem executedOps_append_last {E : Type} (h : Op → Option E) :
    ∀ (L : List Op) (x : Op), (∃ op ∈ L ++ [x], (h op).isSome) →
      executedOps h (L ++ [x]) = executedOps h L := by
  intro L
  induction L with
  | nil =>
    rintro x ⟨op, hop, hs⟩
    rcases List.mem_singleton.mp (by simpa using hop) with rfl
    cases hx : h op with
    | some e => simp [executedOps, hx]
    | none => rw [hx] at hs; simp at hs
  | cons a t ih =>
    rintro x hex
    cases ha : h a with
    | some e => simp [executedOps, ha]
    | none =>
      have hex' : ∃ op ∈ t ++ [x], (h op).isSome := by
        rcases hex with ⟨op, hop, hs⟩
        have hop2 : op ∈ a :: (t ++ [x]) := by simpa using hop
        rcases List.mem_cons.mp hop2 with rfl | hop'
        · rw [ha] at hs; simp at hs
        · exact ⟨op, hop', hs⟩
      show executedOps h (a :: (t ++ [x])) = executedOps h (a :: t)
      rw [executedOps, executedOps, ha]
      exact congrArg (List.cons a) (ih x hex')

theorem svgCurveOps_all_noSave (c : CurveInfo) :
    (svgCurveOps c).all noSave = true := by
  rcases c with ⟨n, a⟩
  cases a <;> rfl

/-- Claim C9: export_svg.py is not atomic on error — it removes every
pre-existing scene object before parsing the source SVG, so whenever the
parse step or any later step (import, a per-curve operator, the save)
raises, the run stops at the first failing step with its error propagated
unchanged, every removal of an original scene object already executed (the
scene emptied of its original objects), and no save-mainfile step ever
executed. -/
theorem c9_not_atomic (E : Type) (h : Op → Option E) (argv objs : List String)
    (curves : List CurveInfo)
    (hrem : ∀ name, h (Op.removeObject name) = none)
    (hfail : ∃ op ∈ Op.parseSvg (pyPenult argv) :: (Op.importSvg (pyPenult argv)
        :: (catMap svgCurveOps curves ++ [Op.saveMainfile (pyLast argv)])),
      (h op).isSome) :
    (∃ pre op post e,
        Op.parseSvg (pyPenult argv) :: (Op.importSvg (pyPenult argv)
            :: (catMap svgCurveOps curves ++ [Op.saveMainfile (pyLast argv)]))
          = pre ++ op :: post
        ∧ (∀ o ∈ pre, h o = none) ∧ h op = some e
        ∧ firstError h (exportSvgOps argv objs curves) = some e)
    ∧ executedOps h (exportSvgOps argv objs curves)
        = objs.map Op.removeObject
          ++ executedOps h (Op.parseSvg (pyPenult argv)
              :: (Op.importSvg (pyPenult argv) :: catMap svgCurveOps curves))
    ∧ (∀ fname, Op.saveMainfile fname
        ∉ executedOps h (exportSvgOps argv objs curves))
    ∧ sceneAfterRemoval objs = [] := by
  have hmap : ∀ op ∈ objs.map Op.removeObject, h op = none := by
    intro op hop
    rcases List.mem_map.mp hop with ⟨x, _, rfl⟩
    exact hrem x
  have hshape : exportSvgOps argv objs curves
      = objs.map Op.removeObject
        ++ (Op.parseSvg (pyPenult argv) :: (Op.importSvg (pyPenult argv)
            :: (catMap svgCurveOps curves ++ [Op.saveMainfile (pyLast argv)]))) := by
    simp [exportSvgOps]
  have htail : Op.parseSvg (pyPenult argv) :: (Op.importSvg (pyPenult argv)
        :: (catMap svgCurveOps curves ++ [Op.saveMainfile (pyLast argv)]))
      = (Op.parseSvg (pyPenult argv) :: (Op.importSvg (pyPenult argv)
          :: catMap svgCurveOps curves)) ++ [Op.saveMainfile (pyLast argv)] := by
    simp
  have hlast : executedOps h (Op.parseSvg (pyPenult argv)
        :: (Op.importSvg (pyPenult argv)
            :: (catMap svgCurveOps curves ++ [Op.saveMainfile (pyLast argv)])))
      = executedOps h (Op.parseSvg (pyPenult argv)
          :: (Op.importSvg (pyPenult argv) :: catMap svgCurveOps curves)) := by
    rw [htail]
    apply executedOps_append_last
    rw [← htail]
    exact hfail
  have hexec : executedOps h (exportSvgOps argv objs curves)
      = objs.map Op.removeObject
        ++ executedOps h (Op.parseSvg (pyPenult argv)
            :: (Op.importSvg (pyPenult argv) :: catMap svgCurveOps curves)) := by
    rw [hshape, executedOps_append h _ _ hmap, hlast]
  have hnosave : (Op.parseSvg (pyPenult argv) :: (Op.importSvg (pyPenult argv)
      :: catMap svgCurveOps curves)).all noSave = true := by
    rw [List.all_cons, List.all_cons, catMap_all, Bool.and_eq_true,
      Bool.and_eq_true]
    refine ⟨rfl, rfl, ?_⟩
    rw [List.all_eq_true]
    intro c hc
    exact svgCurveOps_all_noSave c
  refine ⟨?_, hexec, ?_, sceneAfterRemoval_eq_nil objs⟩
  · obtain ⟨pre, op, post, e, hdec, hpre, hop, hfe0, _⟩ :=
      run_propagation h _ hfail
    refine ⟨pre, op, post, e, hdec, hpre, hop, ?_⟩
    rw [hshape, firstError_append h _ _ hmap]
    exact hfe0
  · intro fname hmem
    rw [hexec] at hmem
    rcases List.mem_append.mp hmem with hmem | hmem
    · rcases List.mem_map.mp hmem with ⟨x, _, hx⟩
      cases hx
    · have hL := executedOps_mem h _ _ hmem
      have := List.all_eq_true.mp hnosave _ hL
      rw [noSave] at this
      simp [isSave] at this

/-- Claim C9 witness: a host on which the SVG parse raises, run on a
concrete scene. -/
theorem c9_witness :
    ((∀ name, parseFailHost (Op.removeObject name) = none)
      ∧ (∃ op ∈ Op.parseSvg (pyPenult ["blender", "in.svg", "out.blend"])
            :: (Op.importSvg (pyPenult ["blender", "in.svg", "out.blend"])
              :: (catMap svgCurveOps [{ name := "path0", hasAlpha := true }]
                  ++ [Op.saveMainfile (pyLast ["blender", "in.svg", "out.blend"])])),
          (parseFailHost op).isSome))
    ∧ ((∃ pre op post e,
          Op.parseSvg (pyPenult ["blender", "in.svg", "out.blend"])
              :: (Op.importSvg (pyPenult ["blender", "in.svg", "out.blend"])
                :: (catMap svgCurveOps [{ name := "path0", hasAlpha := true }]
                    ++ [Op.saveMainfile (pyLast ["blender", "in.svg", "out.blend"])]))
            = pre ++ op :: post
          ∧ (∀ o ∈ pre, parseFailHost o = none) ∧ parseFailHost op = some e
          ∧ firstError parseFailHost
              (exportSvgOps ["blender", "in.svg", "out.blend"] ["Camera", "Cube"]
                [{ name := "path0", hasAlpha := true }]) = some e)
      ∧ executedOps parseFailHost
          (exportSvgOps ["blender", "in.svg", "out.blend"] ["Camera", "Cube"]
            [{ name := "path0", hasAlpha := true }])
          = List.map Op.removeObject ["Camera", "Cube"]
            ++ executedOps parseFailHost
                (Op.parseSvg (pyPenult ["blender", "in.svg", "out.blend"])
                  :: (Op.importSvg (pyPenult ["blender", "in.svg", "out.blend"])
                    :: catMap svgCurveOps [{ name := "path0", hasAlpha := true }]))
      ∧ (∀ fname, Op.saveMainfile fname ∉ executedOps parseFailHost
            (exportSvgOps ["blender", "in.svg", "out.blend"] ["Camera", "Cube"]
              [{ name := "path0", hasAlpha := true }]))
      ∧ sceneAfterRemoval ["Camera", "Cube"] = []) :=
  ⟨⟨fun _ => rfl, by decide⟩,
   c9_not_atomic ℕ parseFailHost ["blender", "in.svg", "out.blend"]
     ["Camera", "Cube"] [{ name := "path0", hasAlpha := true }]
     (fun _ => rfl) (by decide)⟩

theorem bakeColor_rotation (o : BObject) :
    (bakeColor o).rotation_euler_z = o.rotation_euler_z := by
  unfold bakeColor
  split
  · split <;> rfl
  · rfl

theorem bakeColor_creates (o : BObject) (he : o.data.color_attributes = [])
    (c : Color) (hc : o.active_material = some c) :
    (bakeColor o).data.color_attributes
      = [{ attrName := "Col", ctype := "BYTE_COLOR", domain := "CORNER",
           data := List.replicate o.data.corners c }] := by
  rw [bakeColor]
  simp [he, hc, List.map_replicate]

theorem bakeColor_noop (o : BObject)
    (h : o.data.color_attributes ≠ [] ∨ o.active_material = none) :
    bakeColor o = o := by
  rw [bakeColor, if_neg]
  rcases h with h1 | h1
  · exact fun hcon => h1 hcon.1
  · intro hcon
    rw [h1] at hcon
    simp at hcon

/-- Claim C5: in export_blender.py, every scene object of type MESH with no
existing color attributes and an active material gets a new byte-color,
corner-domain color attribute named Col whose every element is set to the
active material's diffuse color; a mesh object that already has a color
attribute or has no active material gets no color attribute. -/
theorem c5_color_baking (objs : List BObject) (i : ℕ) (hi : i < objs.length)
    (hlen : i < (blenderScene objs).length) :
    ((objs.get ⟨i, hi⟩).otype = "MESH" →
      (objs.get ⟨i, hi⟩).data.color_attributes = [] →
      ∀ c, (objs.get ⟨i, hi⟩).active_material = some c →
        ((blenderScene objs).get ⟨i, hlen⟩).data.color_attributes
          = [{ attrName := "Col", ctype := "BYTE_COLOR", domain := "CORNER",
               data := List.replicate (objs.get ⟨i, hi⟩).data.corners c }])
    ∧ ((objs.get ⟨i, hi⟩).otype = "MESH" →
      ((objs.get ⟨i, hi⟩).data.color_attributes ≠ []
        ∨ (objs.get ⟨i, hi⟩).active_material = none) →
      ((blenderScene objs).get ⟨i, hlen⟩).data.color_attributes
        = (objs.get ⟨i, hi⟩).data.color_attributes) := by
  have hmap : (blenderScene objs).get ⟨i, hlen⟩
      = if (objs.get ⟨i, hi⟩).otype = "MESH" then blenderStep (objs.get ⟨i, hi⟩)
        else objs.get ⟨i, hi⟩ := by
    simp [blenderScene, List.get_eq_getElem, List.getElem_map]
  constructor
  · intro ht he c hc
    rw [hmap, if_pos ht]
    exact bakeColor_creates
      { objs.get ⟨i, hi⟩ with
        rotation_euler_z := (objs.get ⟨i, hi⟩).rotation_euler_z + (-piLit) }
      he c hc
  · intro ht hor
    rw [hmap, if_pos ht]
    exact congrArg (fun x => x.data.color_attributes)
      (bakeColor_noop
        { objs.get ⟨i, hi⟩ with
          rotation_euler_z := (objs.get ⟨i, hi⟩).rotation_euler_z + (-piLit) }
        hor)

/-- Claim C5 witness: a concrete two-object scene, one MESH object that gets
the Col attribute and one that keeps its attributes. -/
theorem c5_witness :
    (0 : ℕ) < 2 ∧ (0 : ℕ) < (blenderScene
      [{ name := "Cube", otype := "MESH", rotation_euler_z := 0,
         data := { color_attributes := [], corners := 3 },
         active_material := some { r := 1, g := 0, b := 0, a := 1 } },
       { name := "Lamp", otype := "LIGHT", rotation_euler_z := 0,
         data := { color_attributes := [], corners := 0 },
         active_material := none }]).length ∧
    (([{ name := "Cube", otype := "MESH", rotation_euler_z := 0,
         data := { color_attributes := [], corners := 3 },
         active_material := some { r := 1, g := 0, b := 0, a := 1 } },
       { name := "Lamp", otype := "LIGHT", rotation_euler_z := 0,
         data := { color_attributes := [], corners := 0 },
         active_material := none }] : List BObject).get ⟨0, by decide⟩).otype = "MESH" ∧
    ((blenderScene
      [{ name := "Cube", otype := "MESH", rotation_euler_z := 0,
         data := { color_attributes := [], corners := 3 },
         active_material := some { r := 1, g := 0, b := 0, a := 1 } },
       { name := "Lamp", otype := "LIGHT", rotation_euler_z := 0,
         data := { color_attributes := [], corners := 0 },
         active_material := none }]).get ⟨0, by decide⟩).data.color_attributes
      = [{ attrName := "Col", ctype := "BYTE_COLOR", domain := "CORNER",
           data := List.replicate 3 { r := 1, g := 0, b := 0, a := 1 } }] := by
  refine ⟨by decide, by decide, rfl, ?_⟩
  exact (c5_color_baking
    [{ name := "Cube", otype := "MESH", rotation_euler_z := 0,
       data := { color_attributes := [], corners := 3 },
       active_material := some { r := 1, g := 0, b := 0, a := 1 } },
     { name := "Lamp", otype := "LIGHT", rotation_euler_z := 0,
       data := { color_attributes := [], corners := 0 },
       active_material := none }] 0 (by decide) (by decide)).1 rfl rfl
    { r := 1, g := 0, b := 0, a := 1 } rfl

theorem processCurve_inv {ids : List (String × ℕ)}
    {styles : List (String × List (String × String))} {total : ℚ}
    {fp : String → Option ℚ} {fresh r : SvgObject} {ops : List Op}
    (h : processCurve ids styles total fp fresh = some (r, ops)) :
    ∃ (i : ℕ) (st : List (String × String)) (o2 : SvgObject),
      dictGet fresh.name ids = some i
      ∧ dictGet fresh.name styles = some st
      ∧ o2.name = fresh.name ∧ o2.dim_x = fresh.dim_x ∧ o2.dim_y = fresh.dim_y
      ∧ o2.dim_z = fresh.dim_z ∧ o2.delta_x = fresh.delta_x
      ∧ o2.delta_y = fresh.delta_y
      ∧ o2.delta_z = ((i : ℚ) / total) / 64 + 5 / 1000
      ∧ (dictGet "fill-opacity" st = none → o2.material = fresh.material)
      ∧ (∀ v, dictGet "fill-opacity" st = some v →
          (v = "" → o2.material = fresh.material)
          ∧ (v ≠ "" → ∃ q m, fp v = some q ∧ fresh.material = some m
              ∧ o2.material = some { m with a := q }))
      ∧ r = { o2 with dim_x := o2.dim_x / 8 * edge_smallen_ratio
                    , dim_y := o2.dim_y / 8 * edge_smallen_ratio
                    , delta_x := o2.delta_x + (1 - edge_smallen_ratio)
                    , delta_y := o2.delta_y + (1 - edge_smallen_ratio) }
      ∧ ops = [Op.translateVerts (-1) (-1) 0, Op.beautifyFill,
               Op.removeDoubles (1 / 10)] := by
  cases hids : dictGet fresh.name ids with
  | none => rw [processCurve, hids] at h; simp at h
  | some i =>
  cases hst : dictGet fresh.name styles with
  | none => rw [processCurve, hids] at h; simp [hst] at h
  | some st =>
  cases hfo : dictGet "fill-opacity" st with
  | none =>
    rw [processCurve, hids] at h
    simp only [hst, hfo, Option.some.injEq, Prod.mk.injEq] at h
    obtain ⟨hr, hops⟩ := h
    refine ⟨i, st, { fresh with delta_z := ((i : ℚ) / total) / 64 + 5 / 1000 },
      rfl, rfl, rfl, rfl, rfl, rfl, rfl, rfl, rfl, fun _ => rfl, ?_, hr.symm,
      hops.symm⟩
    intro v hv
    rw [hfo] at hv
    cases hv
  | some v =>
    by_cases hv : v = ""
    · rw [processCurve, hids] at h
      simp only [hst, hfo, if_pos hv, Option.some.injEq, Prod.mk.injEq] at h
      obtain ⟨hr, hops⟩ := h
      refine ⟨i, st, { fresh with delta_z := ((i : ℚ) / total) / 64 + 5 / 1000 },
        rfl, rfl, rfl, rfl, rfl, rfl, rfl, rfl, rfl, ?_, ?_, hr.symm,
        hops.symm⟩
      · intro h0
        simp [hfo] at h0
      · intro v' hv'
        rw [hfo] at hv'
        cases hv'
        exact ⟨fun _ => rfl, fun hne => absurd hv hne⟩
    · cases hq : fp v with
      | none =>
        rw [processCurve, hids] at h
        simp [hst, hfo, if_neg hv, hq] at h
      | some q =>
        cases hm : fresh.material with
        | none =>
          rw [processCurve, hids] at h
          simp [hst, hfo, if_neg hv, hq, hm] at h
        | some m =>
          rw [processCurve, hids] at h
          simp only [hst, hfo, if_neg hv, hq, hm, Option.some.injEq,
            Prod.mk.injEq] at h
          obtain ⟨hr, hops⟩ := h
          refine ⟨i, st,
            { fresh with delta_z := ((i : ℚ) / total) / 64 + 5 / 1000
                       , material := some { m with a := q } },
            rfl, rfl, rfl, rfl, rfl, rfl, rfl, rfl, rfl, ?_, ?_, hr.symm,
            hops.symm⟩
          · intro h0
            simp [hfo] at h0
          · intro v' hv'
            rw [hfo] at hv'
            cases hv'
            exact ⟨fun heq => absurd heq hv, fun _ => ⟨q, m, hq, rfl, rfl⟩⟩

/-- Claim C6: in export_svg.py every imported curve's converted mesh object
is processed with the same fixed constants — x and y dimensions scaled by
(1/8)·0.95, delta x and y locations each increased by 1 − 0.95 = 0.05,
vertices translated by (−1, −1, 0), beautify-fill applied, duplicate
vertices merged with threshold 0.1 — and in export_blender.py every mesh
object's z Euler rotation is decreased by pi (the script's 36-digit pi
literal). -/
theorem c6_fixed_operator_sequence (ids : List (String × ℕ))
    (styles : List (String × List (String × String))) (total : ℚ)
    (fp : String → Option ℚ) (fresh r : SvgObject) (ops : List Op)
    (h : processCurve ids styles total fp fresh = some (r, ops)) :
    r.dim_x = fresh.dim_x * (1 / 8 * (95 / 100))
    ∧ r.dim_y = fresh.dim_y * (1 / 8 * (95 / 100))
    ∧ edge_smallen_ratio = 95 / 100
    ∧ r.delta_x = fresh.delta_x + (1 - edge_smallen_ratio)
    ∧ r.delta_y = fresh.delta_y + (1 - edge_smallen_ratio)
    ∧ (1 - edge_smallen_ratio : ℚ) = 5 / 100
    ∧ ops = [Op.translateVerts (-1) (-1) 0, Op.beautifyFill,
             Op.removeDoubles (1 / 10)]
    ∧ (∀ o : BObject, (blenderStep o).rotation_euler_z
        = o.rotation_euler_z - piLit) := by
  obtain ⟨i, st, o2, _, _, _, hdx, hdy, _, hex, hey, _, _, _, hr, hops⟩ :=
    processCurve_inv h
  subst hr
  refine ⟨?_, ?_, rfl, ?_, ?_, by norm_num [edge_smallen_ratio], hops, ?_⟩
  · show o2.dim_x / 8 * edge_smallen_ratio = fresh.dim_x * (1 / 8 * (95 / 100))
    rw [hdx, edge_smallen_ratio]
    ring
  · show o2.dim_y / 8 * edge_smallen_ratio = fresh.dim_y * (1 / 8 * (95 / 100))
    rw [hdy, edge_smallen_ratio]
    ring
  · show o2.delta_x + (1 - edge_smallen_ratio)
      = fresh.delta_x + (1 - edge_smallen_ratio)
    rw [hex]
  · show o2.delta_y + (1 - edge_smallen_ratio)
      = fresh.delta_y + (1 - edge_smallen_ratio)
    rw [hey]
  · intro o
    rw [blenderStep, bakeColor_rotation]
    rw [sub_eq_add_neg]

/-- Claim C6 witness at a concrete curve object and style. -/
theorem c6_witness :
    processCurve [("path0", 0)] [("path0", [("fill-opacity", "0.5")])] 1 fpTest
        { name := "path0", material := some { r := 1, g := 0, b := 0, a := 1 },
          dim_x := 2, dim_y := 4, dim_z := 0, delta_x := 0, delta_y := 0,
          delta_z := 0 }
      = some ({ name := "path0",
                material := some { r := 1, g := 0, b := 0, a := 1 / 2 },
                dim_x := 19 / 80, dim_y := 19 / 40, dim_z := 0,
                delta_x := 1 / 20, delta_y := 1 / 20, delta_z := 1 / 200 },
              [Op.translateVerts (-1) (-1) 0, Op.beautifyFill,
               Op.removeDoubles (1 / 10)])
    ∧ ((19 / 80 : ℚ) = 2 * (1 / 8 * (95 / 100))
      ∧ (19 / 40 : ℚ) = 4 * (1 / 8 * (95 / 100))
      ∧ edge_smallen_ratio = 95 / 100
      ∧ (1 / 20 : ℚ) = 0 + (1 - edge_smallen_ratio)
      ∧ (1 / 20 : ℚ) = 0 + (1 - edge_smallen_ratio)
      ∧ (1 - edge_smallen_ratio : ℚ) = 5 / 100
      ∧ ([Op.translateVerts (-1) (-1) 0, Op.beautifyFill,
          Op.removeDoubles (1 / 10)] : List Op)
          = [Op.translateVerts (-1) (-1) 0, Op.beautifyFill,
             Op.removeDoubles (1 / 10)]
      ∧ (∀ o : BObject, (blenderStep o).rotation_euler_z
          = o.rotation_euler_z - piLit)) :=
  ⟨by simp [processCurve, dictGet, fpTest, edge_smallen_ratio]; norm_num,
   c6_fixed_operator_sequence [("path0", 0)] [("path0", [("fill-opacity", "0.5")])]
     1 fpTest
     { name := "path0", material := some { r := 1, g := 0, b := 0, a := 1 },
       dim_x := 2, dim_y := 4, dim_z := 0, delta_x := 0, delta_y := 0,
       delta_z := 0 }
     { name := "path0", material := some { r := 1, g := 0, b := 0, a := 1 / 2 },
       dim_x := 19 / 80, dim_y := 19 / 40, dim_z := 0, delta_x := 1 / 20,
       delta_y := 1 / 20, delta_z := 1 / 200 }
     [Op.translateVerts (-1) (-1) 0, Op.beautifyFill, Op.removeDoubles (1 / 10)]
     (by simp [processCurve, dictGet, fpTest, edge_smallen_ratio]; norm_num)⟩

theorem dictGet_keys_none {α : Type} (k : String) (l : List (String × α))
    (hk : k ∉ l.map Prod.fst) : dictGet k l = none := by
  induction l with
  | nil => rfl
  | cons kv t ih =>
    have h1 : k ∉ t.map Prod.fst := fun hmem => hk (List.mem_cons_of_mem _ hmem)
    have h2 : kv.1 ≠ k := by
      intro he
      exact hk (by rw [List.map_cons, ← he]; exact List.mem_cons_self _ _)
    simp [dictGet, ih h1, h2]

theorem pyEnum_swap_keys (l : List String) :
    ∀ k : ℕ, ((pyEnum k l).map (fun e => (e.2, e.1))).map Prod.fst = l := by
  induction l with
  | nil => intro k; rfl
  | cons x t ih => intro k; simp [pyEnum, ih (k + 1)]

theorem dictGet_pyEnum (l : List String) :
    ∀ (hnd : l.Nodup) (k i : ℕ) (hi : i < l.length),
      dictGet (l.get ⟨i, hi⟩) ((pyEnum k l).map (fun e => (e.2, e.1)))
        = some (k + i) := by
  induction l with
  | nil => intro _ k i hi; exact absurd hi (Nat.not_lt_zero i)
  | cons x t ih =>
    intro hnd k i hi
    cases i with
    | zero =>
      have hx : x ∉ t := (List.nodup_cons.mp hnd).1
      have hnone : dictGet x ((pyEnum (k + 1) t).map (fun e => (e.2, e.1)))
          = none := by
        apply dictGet_keys_none
        rw [pyEnum_swap_keys]
        exact hx
      simp [pyEnum, dictGet, hnone]
    | succ j =>
      have hnd' : t.Nodup := (List.nodup_cons.mp hnd).2
      have hj : j < t.length := Nat.lt_of_succ_lt_succ hi
      have hih := ih hnd' (k + 1) j hj
      show dictGet (t.get ⟨j, hj⟩) _ = some (k + (j + 1))
      simp only [pyEnum, List.map_cons, dictGet, hih]
      have : k + 1 + j = k + (j + 1) := by omega
      rw [this]

/-- Claim C10: in export_svg.py, with pairwise distinct path ids, the object
created from the path at 0-based document position i of n gets delta z
location (i/n)/64 + 0.005; the offsets strictly increase with document
position, the first is exactly 0.005, and each is below 0.005 + 1/64. -/
theorem c10_delta_z_offsets :
    (∀ (attribs : List PathAttrib)
        (styles : List (String × List (String × String)))
        (fp : String → Option ℚ) (fresh r : SvgObject) (ops : List Op)
        (i : ℕ) (hi : i < attribs.length),
      (attribs.map PathAttrib.id).Nodup →
      fresh.name = (attribs.get ⟨i, hi⟩).id →
      processCurve (buildIds attribs) styles ((attribs.length : ℕ) : ℚ) fp fresh
          = some (r, ops) →
      r.delta_z = deltaZ i attribs.length)
    ∧ (∀ n : ℕ, 0 < n → deltaZ 0 n = 5 / 1000)
    ∧ (∀ i j n : ℕ, i < j → j < n → deltaZ i n < deltaZ j n)
    ∧ (∀ i n : ℕ, i < n → deltaZ i n < 5 / 1000 + 1 / 64) := by
  refine ⟨?_, ?_, ?_, ?_⟩
  · intro attribs styles fp fresh r ops i hi hnd hname hproc
    have hlenm : i < (attribs.map PathAttrib.id).length := by simpa using hi
    have hgm : (attribs.map PathAttrib.id).get ⟨i, hlenm⟩
        = (attribs.get ⟨i, hi⟩).id := by
      simp [List.get_eq_getElem, List.getElem_map]
    have hkey : dictGet fresh.name (buildIds attribs) = some i := by
      rw [hname, buildIds, ← hgm]
      simpa using dictGet_pyEnum (attribs.map PathAttrib.id) hnd 0 i hlenm
    obtain ⟨i', st, o2, hids, _, _, _, _, _, _, _, hdz, _, _, hr, _⟩ :=
      processCurve_inv hproc
    have hii : i' = i := by
      rw [hkey] at hids
      exact (Option.some.inj hids).symm
    rw [hr]
    show o2.delta_z = deltaZ i attribs.length
    rw [hdz, hii]
    rfl
  · intro n hn
    simp [deltaZ]
  · intro i j n hij hjn
    have hn : (0 : ℚ) < (n : ℚ) := by
      have : 0 < n := Nat.lt_of_le_of_lt (Nat.zero_le j) hjn
      exact_mod_cast this
    have h1 : (i : ℚ) < (j : ℚ) := by exact_mod_cast hij
    have h2 : (i : ℚ) / n < (j : ℚ) / n := (div_lt_div_right hn).mpr h1
    have h3 : (i : ℚ) / n / 64 < (j : ℚ) / n / 64 :=
      (div_lt_div_right (show (0 : ℚ) < 64 by norm_num)).mpr h2
    exact add_lt_add_right h3 (5 / 1000)
  · intro i n hin
    have hn : (0 : ℚ) < (n : ℚ) := by
      have : 0 < n := Nat.lt_of_le_of_lt (Nat.zero_le i) hin
      exact_mod_cast this
    have h1 : (i : ℚ) / n < 1 := (div_lt_one hn).mpr (by exact_mod_cast hin)
    have h2 : (i : ℚ) / n / 64 < 1 / 64 :=
      (div_lt_div_right (show (0 : ℚ) < 64 by norm_num)).mpr h1
    have : deltaZ i n = (i : ℚ) / n / 64 + 5 / 1000 := rfl
    rw [this]
    linarith

/-- Claim C10 witness on a two-path document. -/
theorem c10_witness :
    ((([{ id := "path0", style := none }, { id := "path1", style := none }]
        : List PathAttrib).map PathAttrib.id).Nodup
      ∧ ("path1" : String) = (([{ id := "path0", style := none },
          { id := "path1", style := none }] : List PathAttrib).get
            ⟨1, by decide⟩).id
      ∧ processCurve
          (buildIds [{ id := "path0", style := none },
                     { id := "path1", style := none }])
          [("path1", [("ihate", "python")])] ((2 : ℕ) : ℚ) fpTest
          { name := "path1", material := some { r := 0, g := 1, b := 0, a := 1 },
            dim_x := 8, dim_y := 8, dim_z := 0, delta_x := 0, delta_y := 0,
            delta_z := 0 }
        = some ({ name := "path1",
                  material := some { r := 0, g := 1, b := 0, a := 1 },
                  dim_x := 19 / 20, dim_y := 19 / 20, dim_z := 0,
                  delta_x := 1 / 20, delta_y := 1 / 20, delta_z := 41 / 3200 },
                [Op.translateVerts (-1) (-1) 0, Op.beautifyFill,
                 Op.removeDoubles (1 / 10)]))
    ∧ (41 / 3200 : ℚ) = deltaZ 1 2
    ∧ ((0 : ℕ) < 2 ∧ deltaZ 0 2 = 5 / 1000)
    ∧ ((0 : ℕ) < 1 ∧ (1 : ℕ) < 2 ∧ deltaZ 0 2 < deltaZ 1 2)
    ∧ ((1 : ℕ) < 2 ∧ deltaZ 1 2 < 5 / 1000 + 1 / 64) :=
  ⟨⟨by decide, by decide,
     by simp [processCurve, buildIds, pyEnum, dictGet, fpTest, edge_smallen_ratio]
        norm_num⟩,
   c10_delta_z_offsets.1 [{ id := "path0", style := none },
       { id := "path1", style := none }]
     [("path1", [("ihate", "python")])] fpTest
     { name := "path1", material := some { r := 0, g := 1, b := 0, a := 1 },
       dim_x := 8, dim_y := 8, dim_z := 0, delta_x := 0, delta_y := 0,
       delta_z := 0 }
     { name := "path1", material := some { r := 0, g := 1, b := 0, a := 1 },
       dim_x := 19 / 20, dim_y := 19 / 20, dim_z := 0, delta_x := 1 / 20,
       delta_y := 1 / 20, delta_z := 41 / 3200 }
     [Op.translateVerts (-1) (-1) 0, Op.beautifyFill, Op.removeDoubles (1 / 10)]
     1 (by decide) (by decide) (by decide)
     (by simp [processCurve, buildIds, pyEnum, dictGet, fpTest, edge_smallen_ratio]
         norm_num),
   ⟨by decide, c10_delta_z_offsets.2.1 2 (by decide)⟩,
   ⟨by decide, by decide, c10_delta_z_offsets.2.2.1 0 1 2 (by decide) (by decide)⟩,
   ⟨by decide, c10_delta_z_offsets.2.2.2 1 2 (by decide)⟩⟩

/-- Claim C8: in export_svg.py a path with no style attribute gets the
fallback style map {ihate -> python}; its fill-opacity lookup yields nothing
and the object's material diffuse alpha is left unchanged, while a path
whose style declares a (truthy) fill-opacity gets its alpha set to that
value parsed as a float. -/
theorem c8_fill_opacity_default :
    (∀ a : PathAttrib, a.style = none →
      styleDict a = some [("ihate", "python")])
    ∧ dictGet "fill-opacity" [("ihate", "python")] = none
    ∧ (∀ (ids : List (String × ℕ))
        (styles : List (String × List (String × String))) (total : ℚ)
        (fp : String → Option ℚ) (fresh r : SvgObject) (ops : List Op)
        (st : List (String × String)),
        dictGet fresh.name styles = some st →
        dictGet "fill-opacity" st = none →
        processCurve ids styles total fp fresh = some (r, ops) →
        r.material = fresh.material)
    ∧ (∀ (ids : List (String × ℕ))
        (styles : List (String × List (String × String))) (total : ℚ)
        (fp : String → Option ℚ) (fresh r : SvgObject) (ops : List Op)
        (st : List (String × String)) (v : String) (q : ℚ) (m : Color),
        dictGet fresh.name styles = some st →
        dictGet "fill-opacity" st = some v →
        v ≠ "" →
        fp v = some q →
        fresh.material = some m →
        processCurve ids styles total fp fresh = some (r, ops) →
        r.material = some { m with a := q }) := by
  refine ⟨?_, rfl, ?_, ?_⟩
  · intro a ha
    have hs : styleOf a = "ihate:python" := by simp [styleOf, ha]
    rw [styleDict, hs]
    decide
  · intro ids styles total fp fresh r ops st hst hfo hproc
    obtain ⟨i, st', o2, _, hst', _, _, _, _, _, _, _, hmnone, _, hr, _⟩ :=
      processCurve_inv hproc
    have heq : st' = st := Option.some.inj (hst'.symm.trans hst)
    rw [hr]
    show o2.material = fresh.material
    exact hmnone (heq ▸ hfo)
  · intro ids styles total fp fresh r ops st v q m hst hfo hv hfp hm hproc
    obtain ⟨i, st', o2, _, hst', _, _, _, _, _, _, _, _, hmsome, hr, _⟩ :=
      processCurve_inv hproc
    have heq : st' = st := Option.some.inj (hst'.symm.trans hst)
    obtain ⟨q', m', hq', hm', ho2⟩ := (hmsome v (heq ▸ hfo)).2 hv
    have hqq : q' = q := Option.some.inj (hq'.symm.trans hfp)
    have hmm : m' = m := Option.some.inj (hm'.symm.trans hm)
    rw [hr]
    show o2.material = some { m with a := q }
    rw [ho2, hqq, hmm]

/-- Claim C8 witness: one path without a style (alpha untouched) and one
with a declared fill-opacity (alpha set to the parsed float). -/
theorem c8_witness :
    (({ id := "p", style := none } : PathAttrib).style = none
      ∧ styleDict { id := "p", style := none } = some [("ihate", "python")])
    ∧ dictGet "fill-opacity" [("ihate", "python")] = none
    ∧ (dictGet "p0" [("p0", [("ihate", "python")])] = some [("ihate", "python")]
      ∧ processCurve [("p0", 0)] [("p0", [("ihate", "python")])] 1 fpTest
          { name := "p0", material := some { r := 0, g := 0, b := 1, a := 1 },
            dim_x := 8, dim_y := 8, dim_z := 0, delta_x := 0, delta_y := 0,
            delta_z := 0 }
        = some ({ name := "p0",
                  material := some { r := 0, g := 0, b := 1, a := 1 },
                  dim_x := 19 / 20, dim_y := 19 / 20, dim_z := 0,
                  delta_x := 1 / 20, delta_y := 1 / 20, delta_z := 1 / 200 },
                [Op.translateVerts (-1) (-1) 0, Op.beautifyFill,
                 Op.removeDoubles (1 / 10)])
      ∧ (some { r := 0, g := 0, b := 1, a := 1 } : Option Color)
          = some { r := 0, g := 0, b := 1, a := 1 })
    ∧ (dictGet "p1" [("p1", [("fill-opacity", "0.5")])]
          = some [("fill-opacity", "0.5")]
      ∧ fpTest "0.5" = some (1 / 2)
      ∧ processCurve [("p1", 0)] [("p1", [("fill-opacity", "0.5")])] 1 fpTest
          { name := "p1", material := some { r := 1, g := 1, b := 0, a := 1 },
            dim_x := 8, dim_y := 8, dim_z := 0, delta_x := 0, delta_y := 0,
            delta_z := 0 }
        = some ({ name := "p1",
                  material := some { r := 1, g := 1, b := 0, a := 1 / 2 },
                  dim_x := 19 / 20, dim_y := 19 / 20, dim_z := 0,
                  delta_x := 1 / 20, delta_y := 1 / 20, delta_z := 1 / 200 },
                [Op.translateVerts (-1) (-1) 0, Op.beautifyFill,
                 Op.removeDoubles (1 / 10)])
      ∧ (some { r := 1, g := 1, b := 0, a := 1 / 2 } : Option Color)
          = some { r := 1, g := 1, b := 0, a := (1 / 2 : ℚ) }) :=
  ⟨⟨rfl, c8_fill_opacity_default.1 { id := "p", style := none } rfl⟩,
   c8_fill_opacity_default.2.1,
   ⟨by decide,
    by simp [processCurve, dictGet, fpTest, edge_smallen_ratio]; norm_num,
    c8_fill_opacity_default.2.2.1 [("p0", 0)] [("p0", [("ihate", "python")])] 1
      fpTest
      { name := "p0", material := some { r := 0, g := 0, b := 1, a := 1 },
        dim_x := 8, dim_y := 8, dim_z := 0, delta_x := 0, delta_y := 0,
        delta_z := 0 }
      { name := "p0", material := some { r := 0, g := 0, b := 1, a := 1 },
        dim_x := 19 / 20, dim_y := 19 / 20, dim_z := 0, delta_x := 1 / 20,
        delta_y := 1 / 20, delta_z := 1 / 200 }
      [Op.translateVerts (-1) (-1) 0, Op.beautifyFill, Op.removeDoubles (1 / 10)]
      [("ihate", "python")] (by decide) (by decide)
      (by simp [processCurve, dictGet, fpTest, edge_smallen_ratio]; norm_num)⟩,
   ⟨by decide, rfl,
    by simp [processCurve, dictGet, fpTest, edge_smallen_ratio]; norm_num,
    c8_fill_opacity_default.2.2.2 [("p1", 0)] [("p1", [("fill-opacity", "0.5")])]
      1 fpTest
      { name := "p1", material := some { r := 1, g := 1, b := 0, a := 1 },
        dim_x := 8, dim_y := 8, dim_z := 0, delta_x := 0, delta_y := 0,
        delta_z := 0 }
      { name := "p1", material := some { r := 1, g := 1, b := 0, a := 1 / 2 },
        dim_x := 19 / 20, dim_y := 19 / 20, dim_z := 0, delta_x := 1 / 20,
        delta_y := 1 / 20, delta_z := 1 / 200 }
      [Op.translateVerts (-1) (-1) 0, Op.beautifyFill, Op.removeDoubles (1 / 10)]
      [("fill-opacity", "0.5")] "0.5" (1 / 2)
      { r := 1, g := 1, b := 0, a := 1 } (by decide) (by decide) (by decide)
      rfl (by decide)
      (by simp [processCurve, dictGet, fpTest, edge_smallen_ratio]; norm_num)⟩⟩

theorem toList_mk (l : List Char) : (String.mk l).toList = l := rfl

theorem mk_toList (s : String) : String.mk s.toList = s := rfl

theorem mkDecl_ne_nil (kv : String × String) : mkDecl kv ≠ [] := by
  rw [mkDecl]
  cases h : kv.1.toList with
  | nil => simp
  | cons c t => simp

theorem pairOf_mkDecl (k v : String) (hk : ':' ∉ k.toList)
    (hv : ':' ∉ v.toList) : pairOf (String.mk (mkDecl (k, v))) = some (k, v) := by
  have hk' : ∀ x ∈ k.toList, ¬((x == ':') = true) := by
    intro x hx hb
    rw [beq_iff_eq] at hb
    subst hb
    exact hk hx
  have hv' : ∀ x ∈ v.toList, ¬((x == ':') = true) := by
    intro x hx hb
    rw [beq_iff_eq] at hb
    subst hb
    exact hv hx
  have hsplit : (k.toList ++ ':' :: v.toList).splitOn ':'
      = [k.toList, v.toList] := by
    simp only [List.splitOn]
    rw [List.splitOnP_first _ _ hk' ':' (by simp) v.toList]
    rw [show v.toList.splitOnP (· == ':') = [v.toList] from
      List.splitOnP_eq_single _ _ hv']
  rw [pairOf, pySplit, toList_mk, mkDecl]
  rw [hsplit]
  simp [mk_toList]

theorem semi_not_mem_mkDecl (kv : String × String) (h1 : ';' ∉ kv.1.toList)
    (h2 : ';' ∉ kv.2.toList) : ';' ∉ mkDecl kv := by
  rw [mkDecl]
  intro hmem
  rcases List.mem_append.mp hmem with h | h
  · exact h1 h
  · rcases List.mem_cons.mp h with h | h
    · cases h
    · exact h2 h

theorem pySplit_mkStyle (kvs : List (String × String)) (hne : kvs ≠ [])
    (hsep : ∀ kv ∈ kvs, ';' ∉ mkDecl kv) :
    pySplit ';' (mkStyle kvs) = kvs.map (fun kv => String.mk (mkDecl kv)) := by
  rw [pySplit, mkStyle, toList_mk]
  rw [List.splitOn_intercalate _ ';' ?_ ?_]
  · rw [List.map_map]
    rfl
  · intro l hl
    rcases List.mem_map.mp hl with ⟨kv, hkv, rfl⟩
    exact hsep kv hkv
  · simp [hne]

theorem pyMapM_pairOf (kvs : List (String × String))
    (h : ∀ kv ∈ kvs, ':' ∉ kv.1.toList ∧ ':' ∉ kv.2.toList) :
    pyMapM pairOf (kvs.map (fun kv => String.mk (mkDecl kv))) = some kvs := by
  induction kvs with
  | nil => rfl
  | cons kv t ih =>
    have hkv := h kv (List.mem_cons_self kv t)
    have hp : pairOf (String.mk (mkDecl kv)) = some kv := by
      rcases kv with ⟨k, v⟩
      exact pairOf_mkDecl k v hkv.1 hkv.2
    have ht := ih (fun x hx => h x (List.mem_cons_of_mem kv hx))
    simp [pyMapM, hp, ht]

theorem mkStyle_ne_empty (kvs : List (String × String)) (hne : kvs ≠ [])
    (hsep : ∀ kv ∈ kvs, ';' ∉ mkDecl kv) : mkStyle kvs ≠ "" := by
  intro h0
  have h1 : List.intercalate [';'] (kvs.map mkDecl) = [] := by
    have := congrArg String.toList h0
    rw [mkStyle] at this
    exact this
  have h2 : (List.intercalate [';'] (kvs.map mkDecl)).splitOn ';'
      = kvs.map mkDecl := by
    refine List.splitOn_intercalate _ ';' ?_ ?_
    · intro l hl
      rcases List.mem_map.mp hl with ⟨kv, hkv, rfl⟩
      exact hsep kv hkv
    · simp [hne]
  rw [h1, List.splitOn_nil] at h2
  cases kvs with
  | nil => exact hne rfl
  | cons kv t =>
    rw [List.map_cons] at h2
    have := (List.cons.injEq _ _ _ _).mp h2.symm
    exact mkDecl_ne_nil kv this.1

theorem styleDict_mkStyle (a : PathAttrib) (kvs : List (String × String))
    (hne : kvs ≠ [])
    (hchars : ∀ kv ∈ kvs, (';' ∉ kv.1.toList ∧ ':' ∉ kv.1.toList)
        ∧ (';' ∉ kv.2.toList ∧ ':' ∉ kv.2.toList))
    (ha : a.style = some (mkStyle kvs)) : styleDict a = some kvs := by
  have hsep : ∀ kv ∈ kvs, ';' ∉ mkDecl kv := by
    intro kv hkv
    exact semi_not_mem_mkDecl kv (hchars kv hkv).1.1 (hchars kv hkv).2.1
  have hms : mkStyle kvs ≠ "" := mkStyle_ne_empty kvs hne hsep
  have hso : styleOf a = mkStyle kvs := by
    rw [styleOf, ha]
    simp [hms]
  rw [styleDict, hso, pySplit_mkStyle kvs hne hsep]
  exact pyMapM_pairOf kvs
    (fun kv hkv => ⟨(hchars kv hkv).1.2, (hchars kv hkv).2.2⟩)

theorem buildStyles_keys :
    ∀ (attribs : List PathAttrib) (sl : List (String × List (String × String))),
      buildStyles attribs = some sl →
      sl.map Prod.fst = attribs.map PathAttrib.id := by
  intro attribs
  induction attribs with
  | nil =>
    intro sl h
    rw [buildStyles] at h
    cases h
    rfl
  | cons a t ih =>
    intro sl h
    rw [buildStyles, pyMapM] at h
    cases hd : styleDict a with
    | none => rw [hd] at h; cases h
    | some d =>
      rw [hd] at h
      cases ht : pyMapM (fun a => match styleDict a with
          | none => none
          | some d => some (a.id, d)) t with
      | none => rw [ht] at h; cases h
      | some sl' =>
        rw [ht] at h
        cases h
        have := ih sl' ht
        simp [this]

theorem buildStyles_isSome :
    ∀ (attribs : List PathAttrib) (sl : List (String × List (String × String))),
      buildStyles attribs = some sl →
      ∀ a ∈ attribs, ∃ d, styleDict a = some d := by
  intro attribs
  induction attribs with
  | nil => intro sl _ a ha; cases ha
  | cons a t ih =>
    intro sl h b hb
    rw [buildStyles, pyMapM] at h
    cases hd : styleDict a with
    | none => rw [hd] at h; cases h
    | some d =>
      rw [hd] at h
      cases ht : pyMapM (fun a => match styleDict a with
          | none => none
          | some d => some (a.id, d)) t with
      | none => rw [ht] at h; cases h
      | some sl' =>
        rcases List.mem_cons.mp hb with rfl | hbt
        · exact ⟨d, hd⟩
        · exact ih sl' ht b hbt

theorem buildStyles_get :
    ∀ (attribs : List PathAttrib) (sl : List (String × List (String × String)))
      (hbs : buildStyles attribs = some sl)
      (hnd : (attribs.map PathAttrib.id).Nodup) (i : ℕ) (hi : i < attribs.length),
      dictGet ((attribs.get ⟨i, hi⟩).id) sl = styleDict (attribs.get ⟨i, hi⟩) := by
  intro attribs
  induction attribs with
  | nil => intro sl _ _ i hi; exact absurd hi (Nat.not_lt_zero i)
  | cons a t ih =>
    intro sl hbs hnd i hi
    rw [buildStyles, pyMapM] at hbs
    cases hd : styleDict a with
    | none => rw [hd] at hbs; cases hbs
    | some d =>
      rw [hd] at hbs
      cases ht : pyMapM (fun a => match styleDict a with
          | none => none
          | some d => some (a.id, d)) t with
      | none => rw [ht] at hbs; cases hbs
      | some sl' =>
        rw [ht] at hbs
        cases hbs
        have hkeys : sl'.map Prod.fst = t.map PathAttrib.id :=
          buildStyles_keys t sl' ht
        cases i with
        | zero =>
          have haid : a.id ∉ sl'.map Prod.fst := by
            rw [hkeys]
            exact (List.nodup_cons.mp (by simpa using hnd)).1
          have hnone : dictGet a.id sl' = none := dictGet_keys_none a.id sl' haid
          simp [dictGet, hnone, hd]
        | succ j =>
          have hj : j < t.length := Nat.lt_of_succ_lt_succ hi
          have hih := ih sl' ht (List.nodup_cons.mp (by simpa using hnd)).2 j hj
          obtain ⟨d', hd'⟩ := buildStyles_isSome t sl' ht (t.get ⟨j, hj⟩)
            (List.get_mem t j hj)
          show dictGet ((t.get ⟨j, hj⟩).id) ((a.id, d) :: sl')
            = styleDict (t.get ⟨j, hj⟩)
          rw [dictGet, hih, hd']

/-- Claim C4: export_svg.py parses each path's inline style by splitting on
";" and then on ":": for a path with id I and style attribute k1:v1;...;kn:vn
with distinct keys, the styles map sends I to the bindings
[(k1, v1), ..., (kn, vn)], and the path-id map sends each path's id to its
0-based position in document order. -/
theorem c4_style_and_id_parsing (attribs : List PathAttrib) (i : ℕ)
    (hi : i < attribs.length) (kvs : List (String × String))
    (sl : List (String × List (String × String)))
    (hnd : (attribs.map PathAttrib.id).Nodup)
    (hkeys : (kvs.map Prod.fst).Nodup)
    (hne : kvs ≠ [])
    (hchars : ∀ kv ∈ kvs, (';' ∉ kv.1.toList ∧ ':' ∉ kv.1.toList)
        ∧ (';' ∉ kv.2.toList ∧ ':' ∉ kv.2.toList))
    (hstyle : (attribs.get ⟨i, hi⟩).style = some (mkStyle kvs))
    (hbs : buildStyles attribs = some sl) :
    dictGet (attribs.get ⟨i, hi⟩).id sl = some kvs
    ∧ dictGet (attribs.get ⟨i, hi⟩).id (buildIds attribs) = some i := by
  constructor
  · rw [buildStyles_get attribs sl hbs hnd i hi]
    exact styleDict_mkStyle _ kvs hne hchars hstyle
  · have hlenm : i < (attribs.map PathAttrib.id).length := by simpa using hi
    have hgm : (attribs.map PathAttrib.id).get ⟨i, hlenm⟩
        = (attribs.get ⟨i, hi⟩).id := by
      simp [List.get_eq_getElem, List.getElem_map]
    rw [buildIds, ← hgm]
    simpa using dictGet_pyEnum (attribs.map PathAttrib.id) hnd 0 i hlenm

/-- Claim C4 witness on a concrete two-path document. -/
theorem c4_witness :
    (([{ id := "p0", style := some "fill:red;fill-opacity:0.5" },
       { id := "p1", style := none }] : List PathAttrib).map
        PathAttrib.id).Nodup
    ∧ ((["fill", "fill-opacity"] : List String).Nodup)
    ∧ (([{ id := "p0", style := some "fill:red;fill-opacity:0.5" },
        { id := "p1", style := none }] : List PathAttrib).get
          ⟨0, by decide⟩).style
        = some (mkStyle [("fill", "red"), ("fill-opacity", "0.5")])
    ∧ buildStyles [{ id := "p0", style := some "fill:red;fill-opacity:0.5" },
        { id := "p1", style := none }]
        = some [("p0", [("fill", "red"), ("fill-opacity", "0.5")]),
                ("p1", [("ihate", "python")])]
    ∧ (dictGet "p0" [("p0", [("fill", "red"), ("fill-opacity", "0.5")]),
          ("p1", [("ihate", "python")])]
        = some [("fill", "red"), ("fill-opacity", "0.5")]
      ∧ dictGet "p0" (buildIds
          [{ id := "p0", style := some "fill:red;fill-opacity:0.5" },
           { id := "p1", style := none }]) = some 0) :=
  ⟨by decide, by decide, by decide, by decide,
   c4_style_and_id_parsing
     [{ id := "p0", style := some "fill:red;fill-opacity:0.5" },
      { id := "p1", style := none }] 0 (by decide)
     [("fill", "red"), ("fill-opacity", "0.5")]
     [("p0", [("fill", "red"), ("fill-opacity", "0.5")]),
      ("p1", [("ihate", "python")])]
     (by decide) (by decide) (by decide) (by decide) (by decide) (by decide)⟩

end Automancy
